import Mathlib

/-!
Verification of the Scan-to-Comic View Controller of the
vulnerable-banana-sensei frontend.

The data model is embedded from frontend-ui/src/types/api.ts; the view
controller state machine from frontend-ui/src/App.tsx; the comic viewer
navigation from frontend-ui/src/components/ComicViewer.tsx; the upload
drop handler from the UploadZone component. The localStorage helpers
saveScan and addComicToScan live in lib/storage.ts, which is not part of
the supplied source; they are modelled from the specification and marked
as such in their doc comments.
-/

/-- Embeds the Severity union type of types/api.ts. -/
inductive Severity
| CRITICAL | HIGH | MEDIUM | LOW | INFO
deriving DecidableEq, Repr

/-- Embeds the StoryType union type of types/api.ts. -/
inductive StoryType
| ACTIVE | HISTORICAL_YOURS | HISTORICAL_GENERAL
deriving DecidableEq, Repr

/-- Embeds the Archetype union type of types/api.ts. -/
inductive Archetype
| HEIST | OOPS | SAGA | LURKER
deriving DecidableEq, Repr

/-- Embeds the ArtStyle union type of types/api.ts. -/
inductive ArtStyle
| EPIC_SCIFI | NOIR_THRILLER | RETRO_COMIC | MINIMAL_XKCD | CYBERPUNK | PROPAGANDA_POSTER
deriving DecidableEq, Repr

/-- Embeds the StoryCard interface of types/api.ts. -/
structure StoryCard where
  id : String
  title : String
  packageName : String
  packageVersion : String
  storyType : StoryType
  severity : Option Severity
  whatHappened : List String
  whyShouldICare : List String
  whatShouldIDo : List String
  incidentDate : Option String
  sources : List String
deriving DecidableEq, Repr

/-- Embeds the Vulnerability interface of types/api.ts. -/
structure Vulnerability where
  vulnId : String
  packageName : String
  affectedVersions : String
  severity : Severity
  summary : String
  details : Option String
  references : List String
deriving DecidableEq, Repr

/-- Embeds the ScanResponse interface of types/api.ts. -/
structure ScanResponse where
  filename : String
  packageCount : Nat
  storyCards : List StoryCard
  vulnerabilities : List Vulnerability
  cleanCount : Nat
deriving DecidableEq, Repr

/-- Embeds the GeneratedPage interface of types/api.ts. -/
structure GeneratedPage where
  pageNumber : Nat
  imageUrl : String
deriving DecidableEq, Repr

/-- Embeds the GeneratedComic interface of types/api.ts. -/
structure GeneratedComic where
  comicHash : String
  title : String
  archetype : Archetype
  artStyle : ArtStyle
  pageCount : Nat
  totalPanels : Nat
  pages : List GeneratedPage
  shareUrl : String
  generatedAt : String
deriving DecidableEq, Repr

/-- Embeds the ReportSummary interface of types/api.ts. -/
structure ReportSummary where
  critical : Nat
  high : Nat
  medium : Nat
  low : Nat
  clean : Nat
deriving DecidableEq, Repr

/-- Embeds the ReportIssue interface of types/api.ts. -/
structure ReportIssue where
  packageName : String
  packageVersion : String
  issue : String
  recommendation : Option String
  severity : Severity
  comicHash : Option String
deriving DecidableEq, Repr

/-- Embeds the SecurityReport interface of types/api.ts. -/
structure SecurityReport where
  reportHash : String
  filename : String
  generatedAt : String
  summary : ReportSummary
  requiresAction : List ReportIssue
  informational : List ReportIssue
  cleanCount : Nat
  downloadUrl : String
deriving DecidableEq, Repr

/-- The comic summary objects stored on a history entry, the shape
passed to addComicToScan in App.tsx: a hash and a title. -/
structure ComicSummary where
  hash : String
  title : String
deriving DecidableEq, Repr

/-- The ScanHistoryEntry records persisted in localStorage, with the
fields App.tsx passes to saveScan: id, filename, timestamp, packageCount,
scanResponse, report and comics. -/
structure ScanHistoryEntry where
  id : String
  filename : String
  timestamp : String
  packageCount : Nat
  scanResponse : ScanResponse
  report : Option SecurityReport
  comics : List ComicSummary
deriving DecidableEq, Repr

/-- Modelled from the spec: lib/storage.ts is not under src/. The
createEntry operation of the Local History Store generates a fresh
identifier and stores the entry; here the fresh id is already embedded
in the entry and storing appends it to the keyed collection. -/
def saveScan (h : List ScanHistoryEntry) (e : ScanHistoryEntry) : List ScanHistoryEntry :=
  h ++ [e]

/-- Modelled from the spec: lib/storage.ts is not under src/. The
appendComic operation idempotently adds a comic summary to the existing
entry with the given id and silently leaves the store unchanged when no
such entry exists. -/
def addComicToScan (h : List ScanHistoryEntry) (sid : String) (c : ComicSummary) :
    List ScanHistoryEntry :=
  h.map (fun e =>
    if e.id = sid then
      if c ∈ e.comics then e else { e with comics := e.comics ++ [c] }
    else e)

/-- The AppView union type of App.tsx. -/
inductive AppView
| upload | stories | generating | comic
deriving DecidableEq, Repr

/-- One in-flight generateComic request: the story passed to
handleGenerateComic together with the currentScanId value captured by
the handler closure at invocation time. -/
structure PendingGen where
  story : StoryCard
  scanIdAtCall : Option String
deriving DecidableEq, Repr

/-- Outcome of an asynchronous network call: a domain result, a typed
ApiError carrying a server message, or any other failure. -/
inductive Outcome (α : Type)
| ok (v : α)
| apiError (msg : String)
| failure
deriving DecidableEq, Repr

/-- The controller state of App.tsx: the useState fields of the App
component, the persisted localStorage history, the list of in-flight
generateComic promises, and a ghost log of every generateComic request
ever issued (newest first). -/
structure AppState where
  view : AppView
  scanResult : Option ScanResponse
  currentScanId : Option String
  selectedStory : Option StoryCard
  generatedComic : Option GeneratedComic
  isScanning : Bool
  isGenerating : Bool
  error : Option String
  history : List ScanHistoryEntry
  pending : List PendingGen
  requests : List StoryCard
deriving DecidableEq, Repr

/-- The initial state of the App component over a pre-existing
localStorage history h0. -/
def initState (h0 : List ScanHistoryEntry) : AppState :=
  { view := .upload
    scanResult := none
    currentScanId := none
    selectedStory := none
    generatedComic := none
    isScanning := false
    isGenerating := false
    error := none
    history := h0
    pending := []
    requests := [] }

/-- The disabled condition of the per-card generate button in App.tsx,
passed to StoryCard as isGenerating: the global flag conjoined with the
optional-chained id comparison selectedStory?.id === story.id. -/
def selectedMatches : Option StoryCard → StoryCard → Bool
| some sel, story => sel.id == story.id
| none, _ => false

/-- User-level events of the controller. Scan is atomic (invocation plus
resolution) since the upload zone is disabled while scanning; comic
generation is split into the click and a later resolution of one of the
in-flight promises, since other events can occur in between. The fresh
scan id and timestamp produced at scan time are event parameters. -/
inductive AppAction
| scanUpload (o : Outcome ScanResponse) (freshId : String) (ts : String)
| clickGenerate (story : StoryCard)
| resolveGen (i : Nat) (o : Outcome GeneratedComic)
| backToStories
| startOver

/-- The ScanHistoryEntry built by handleFileSelect on a successful scan
with result r, fresh scan id fid and timestamp ts. -/
def scanEntry (fid ts : String) (r : ScanResponse) : ScanHistoryEntry :=
  { id := fid
    filename := r.filename
    timestamp := ts
    packageCount := r.packageCount
    scanResponse := r
    report := none
    comics := [] }

/-- The transition function of the view controller. Each branch mirrors
the corresponding handler in App.tsx; an event whose UI element is not
rendered or is disabled leaves the state unchanged. -/
def step (s : AppState) : AppAction → AppState
| .scanUpload o fid ts =>
  if s.view = .upload ∧ s.isScanning = false then
    match o with
    | .ok r =>
      { s with
        scanResult := some r
        currentScanId := some fid
        history := saveScan s.history (scanEntry fid ts r)
        view := .stories
        isScanning := false
        error := none }
    | .apiError m => { s with error := some m, isScanning := false }
    | .failure =>
      { s with error := some "Failed to scan file. Please try again.", isScanning := false }
  else s
| .clickGenerate story =>
  match s.scanResult with
  | some r =>
    if s.view = .stories ∧ story ∈ r.storyCards ∧
        (s.isGenerating && selectedMatches s.selectedStory story) = false then
      { s with
        selectedStory := some story
        isGenerating := true
        view := .generating
        error := none
        pending := { story := story, scanIdAtCall := s.currentScanId } :: s.pending
        requests := story :: s.requests }
    else s
  | none => s
| .resolveGen i o =>
  match s.pending[i]? with
  | some req =>
    match o with
    | .ok c =>
      { s with
        generatedComic := some c
        history :=
          match req.scanIdAtCall with
          | some sid => addComicToScan s.history sid { hash := c.comicHash, title := c.title }
          | none => s.history
        view := .comic
        isGenerating := false
        pending := s.pending.eraseIdx i }
    | .apiError m =>
      { s with
        error := some m
        view := .stories
        isGenerating := false
        pending := s.pending.eraseIdx i }
    | .failure =>
      { s with
        error := some "Failed to generate comic. Please try again."
        view := .stories
        isGenerating := false
        pending := s.pending.eraseIdx i }
  | none => s
| .backToStories =>
  if s.view = .comic ∧ s.generatedComic.isSome then
    { s with generatedComic := none, selectedStory := none, view := .stories }
  else s
| .startOver =>
  { s with
    scanResult := none
    currentScanId := none
    selectedStory := none
    generatedComic := none
    error := none
    view := .upload }

/-- Runs a list of events from the initial state over history h0. -/
def runTrace (h0 : List ScanHistoryEntry) (acts : List AppAction) : AppState :=
  acts.foldl step (initState h0)

/-- Files dropped on the upload zone; for this model only identity
matters. -/
abbrev UploadFile := String

/-- The onDrop callback of the UploadZone component: it invokes
onFileSelect on the first accepted file when the accepted list is
non-empty and does nothing otherwise. The returned list records the
onFileSelect invocations made by one drop event. -/
def onDropCalls (acceptedFiles : List UploadFile) : List UploadFile :=
  if h : 0 < acceptedFiles.length then [acceptedFiles.get ⟨0, h⟩] else []

/-- The handleNext guard of ComicViewer: advance only while
currentPage < pages.length - 1. -/
def viewerNext (n p : Nat) : Nat :=
  if p < n - 1 then p + 1 else p

/-- The handlePrev guard of ComicViewer: go back only while
currentPage > 0. -/
def viewerPrev (p : Nat) : Nat :=
  if 0 < p then p - 1 else p

/-- A page-dot click in ComicViewer sets currentPage to the index of the
clicked dot; one dot is rendered per page, so only indices below the
page count can be clicked (any other index is not an event). -/
def viewerDot (n p i : Nat) : Nat :=
  if i < n then i else p

/-- Navigation events of the comic viewer; the arrow keys map to the
same prev and next handlers. -/
inductive NavAction
| next
| prev
| dot (i : Nat)

/-- One viewer navigation step over a comic with n pages. -/
def navStep (n p : Nat) : NavAction → Nat
| .next => viewerNext n p
| .prev => viewerPrev p
| .dot i => viewerDot n p i

/-- The currentPage reached from the initial useState value 0 after a
sequence of navigation events, for a comic with n pages. -/
def runNav (n : Nat) (acts : List NavAction) : Nat :=
  acts.foldl (navStep n) 0

/-- Modelled from the spec: the backend scan pipeline is not under
src/. For a manifest yielding 0 vulnerabilities the scan returns a
result with no vulnerabilities and no story cards. -/
def cleanScanResult (fn : String) (pc clean : Nat) : ScanResponse :=
  { filename := fn
    packageCount := pc
    storyCards := []
    vulnerabilities := []
    cleanCount := clean }

/-- The branch condition of the stories view in App.tsx: the story-card
list is rendered when storyCards.length > 0, and the at-peace empty
state is rendered otherwise. -/
def storiesViewShowsList (r : ScanResponse) : Bool :=
  decide (0 < r.storyCards.length)

/-- A sample story card used by concrete witnesses and traces. -/
def sampleStory : StoryCard :=
  { id := "s1"
    title := "The Worm That Ate NPM"
    packageName := "left-pad"
    packageVersion := "1.0.0"
    storyType := .ACTIVE
    severity := some .HIGH
    whatHappened := ["it happened"]
    whyShouldICare := ["it matters"]
    whatShouldIDo := ["upgrade"]
    incidentDate := none
    sources := [] }

/-- A sample scan result containing the sample story card. -/
def sampleScan : ScanResponse :=
  { filename := "package.json"
    packageCount := 3
    storyCards := [sampleStory]
    vulnerabilities := []
    cleanCount := 2 }

/-- A sample generated comic with two pages. -/
def sampleComic : GeneratedComic :=
  { comicHash := "h1"
    title := "The Worm That Ate NPM"
    archetype := .SAGA
    artStyle := .RETRO_COMIC
    pageCount := 2
    totalPanels := 6
    pages := [{ pageNumber := 1, imageUrl := "u1" }, { pageNumber := 2, imageUrl := "u2" }]
    shareUrl := "share"
    generatedAt := "t0" }

/-- A user trace that issues a second generateComic request for the same
story while the first is still pending: scan, click generate on the
story, start over during the pending generation, scan again, and click
generate on the same story. The header start-over button stays rendered
in the generating view, start over does not reset the isGenerating flag,
and it clears selectedStory, so the re-rendered story card is enabled. -/
def doubleRequestTrace : List AppAction :=
  [ .scanUpload (.ok sampleScan) "id1" "t1"
  , .clickGenerate sampleStory
  , .startOver
  , .scanUpload (.ok sampleScan) "id2" "t2"
  , .clickGenerate sampleStory ]

/-- Extends the double-request trace: the first pending generation
resolves successfully (moving to the comic view), then the second one
fails (moving back to the stories view without clearing the generated
comic), leaving a stories state that still holds an active comic. -/
def staleComicTrace : List AppAction :=
  doubleRequestTrace ++ [ .resolveGen 1 (.ok sampleComic), .resolveGen 0 .failure ]

/-- The state after one successful scan from the initial state. -/
def postScanState : AppState :=
  runTrace [] [ .scanUpload (.ok sampleScan) "id1" "t1" ]

/-- The state after a successful scan followed by clicking generate on
the sample story: one generation request is pending for it. -/
def pendingGenState : AppState :=
  runTrace [] [ .scanUpload (.ok sampleScan) "id1" "t1", .clickGenerate sampleStory ]

/-- The state after a scan, a generate click, and a failing resolution
of that generation request. -/
def genFailureState : AppState :=
  runTrace [] [ .scanUpload (.ok sampleScan) "id1" "t1", .clickGenerate sampleStory
              , .resolveGen 0 (.apiError "boom") ]

/-- The stories-view state reached by staleComicTrace, which still holds
an active generated comic. -/
def staleComicState : AppState := runTrace [] staleComicTrace

lemma addComicToScan_length (h : List ScanHistoryEntry) (sid : String) (c : ComicSummary) :
    (addComicToScan h sid c).length = h.length := by
  simp [addComicToScan]

lemma mem_addComicToScan_of_ne (h : List ScanHistoryEntry) (sid : String) (c : ComicSummary)
    (e : ScanHistoryEntry) (he : e ∈ h) (hne : e.id ≠ sid) : e ∈ addComicToScan h sid c := by
  unfold addComicToScan
  refine List.mem_map.mpr ⟨e, he, ?_⟩
  simp [hne]

lemma mem_addComicToScan_of_eq (h : List ScanHistoryEntry) (sid : String) (c : ComicSummary)
    (e : ScanHistoryEntry) (he : e ∈ h) (heq : e.id = sid) (hc : c ∉ e.comics) :
    { e with comics := e.comics ++ [c] } ∈ addComicToScan h sid c := by
  unfold addComicToScan
  refine List.mem_map.mpr ⟨e, he, ?_⟩
  simp [heq, hc]

/-- C2: a failed scan leaves the controller in the upload view with the
scan result and the persisted history untouched; the stored error is the
server message for a structured ApiError and the static fallback string
for every other failure. -/
theorem scan_failure_keeps_upload_view (s : AppState) (fid ts msg : String)
    (hv : s.view = .upload) (hs : s.isScanning = false) :
    ((step s (.scanUpload (.apiError msg) fid ts)).view = .upload
      ∧ (step s (.scanUpload (.apiError msg) fid ts)).error = some msg
      ∧ (step s (.scanUpload (.apiError msg) fid ts)).scanResult = s.scanResult
      ∧ (step s (.scanUpload (.apiError msg) fid ts)).history = s.history)
    ∧ ((step s (.scanUpload .failure fid ts)).view = .upload
      ∧ (step s (.scanUpload .failure fid ts)).error =
          some "Failed to scan file. Please try again."
      ∧ (step s (.scanUpload .failure fid ts)).scanResult = s.scanResult
      ∧ (step s (.scanUpload .failure fid ts)).history = s.history) := by
  simp [step, hv, hs]

/-- Witness for C2 at the initial state with a structured server error. -/
theorem scan_failure_keeps_upload_view_w :
    (step (initState []) (.scanUpload (.apiError "oops") "i1" "t1")).view = .upload :=
  (scan_failure_keeps_upload_view (initState []) "i1" "t1" "oops" rfl rfl).1.1

/-- C3: a successful scan with result R moves the controller from the
upload view to the stories view and appends a history entry embedding R,
with the filename and package count of R, no report and no comics. -/
theorem scan_success_creates_history_entry (s : AppState) (r : ScanResponse) (fid ts : String)
    (hv : s.view = .upload) (hs : s.isScanning = false) :
    (step s (.scanUpload (.ok r) fid ts)).view = .stories
    ∧ (step s (.scanUpload (.ok r) fid ts)).scanResult = some r
    ∧ (step s (.scanUpload (.ok r) fid ts)).currentScanId = some fid
    ∧ (step s (.scanUpload (.ok r) fid ts)).history = s.history ++ [scanEntry fid ts r]
    ∧ (scanEntry fid ts r).scanResponse = r
    ∧ (scanEntry fid ts r).filename = r.filename
    ∧ (scanEntry fid ts r).packageCount = r.packageCount
    ∧ (scanEntry fid ts r).comics = []
    ∧ (scanEntry fid ts r).report = none := by
  simp [step, hv, hs, saveScan, scanEntry]

/-- Witness for C3 at the initial state with the sample scan result. -/
theorem scan_success_creates_history_entry_w :
    (step (initState []) (.scanUpload (.ok sampleScan) "id1" "t1")).view = .stories :=
  (scan_success_creates_history_entry (initState []) sampleScan "id1" "t1" rfl rfl).1

/-- C5: the start-over event, from any state, moves the view to upload,
clears the scan result, the scan id, the selected story, the active
comic and the error, and leaves the persisted history unchanged. -/
theorem start_over_resets_transient_state (s : AppState) :
    (step s .startOver).view = .upload
    ∧ (step s .startOver).scanResult = none
    ∧ (step s .startOver).currentScanId = none
    ∧ (step s .startOver).selectedStory = none
    ∧ (step s .startOver).generatedComic = none
    ∧ (step s .startOver).error = none
    ∧ (step s .startOver).history = s.history := by
  simp [step]

/-- C1 counterexample: along doubleRequestTrace the user clicks generate
on the same story twice, the second time while the first request is
still unresolved, and the controller issues a second generateComic
request: the request log holds two requests for the story and both are
still pending. Start over during the pending generation cleared the
selected story, so the re-rendered card button was enabled. -/
theorem second_request_for_same_story_issued :
    (runTrace [] doubleRequestTrace).requests = [sampleStory, sampleStory]
    ∧ (runTrace [] doubleRequestTrace).pending.map PendingGen.story = [sampleStory, sampleStory]
    ∧ (runTrace [] doubleRequestTrace).pending.length = 2 := by
  exact ⟨rfl, rfl, rfl⟩

/-- C1 (amended): clicking generate on a story rendered in the stories
view whose card button is enabled (not both isGenerating and a matching
selected-story id) moves the controller to the generating view, selects
the story and issues exactly one new generateComic request; and the
click is a no-op, issuing no request, whenever the generation flag is
set and the selected story still carries the same id. After a start
over and re-scan during a pending generation the selected story is
cleared, so a second request for the same story can then be issued. -/
theorem generate_click_transitions_and_guard (s : AppState) (r : ScanResponse)
    (story : StoryCard) :
    (s.view = .stories → s.scanResult = some r → story ∈ r.storyCards →
      (s.isGenerating && selectedMatches s.selectedStory story) = false →
      (step s (.clickGenerate story)).view = .generating
      ∧ (step s (.clickGenerate story)).selectedStory = some story
      ∧ (step s (.clickGenerate story)).requests = story :: s.requests
      ∧ (step s (.clickGenerate story)).pending =
          { story := story, scanIdAtCall := s.currentScanId } :: s.pending)
    ∧ (∀ sel, s.isGenerating = true → s.selectedStory = some sel → sel.id = story.id →
        step s (.clickGenerate story) = s) := by
  constructor
  · intro hv hr hmem hen
    simp [step, hv, hr, hmem, hen]
  · intro sel hg hsel hid
    cases h : s.scanResult with
    | none => simp [step, h]
    | some r2 => simp [step, h, hg, hsel, selectedMatches, hid]

/-- Witness for C1 (amended): at the post-scan state the click fires and
moves to generating; at the pending-generation state a second click on
the same story leaves the state unchanged. -/
theorem generate_click_transitions_and_guard_w :
    (step postScanState (.clickGenerate sampleStory)).view = .generating
    ∧ step pendingGenState (.clickGenerate sampleStory) = pendingGenState := by
  refine ⟨((generate_click_transitions_and_guard postScanState sampleScan sampleStory).1
      rfl rfl (by decide) rfl).1,
    (generate_click_transitions_and_guard pendingGenState sampleScan sampleStory).2
      sampleStory rfl rfl rfl⟩

/-- C4 counterexample: after a scan, a generate click and a failing
generation, the controller is back in the stories view with the error
populated, but the selected story is still the clicked story rather
than none: the failure path of handleGenerateComic never clears it. -/
theorem generation_failure_keeps_selected_story :
    genFailureState.view = .stories
    ∧ genFailureState.error = some "boom"
    ∧ genFailureState.selectedStory = some sampleStory
    ∧ genFailureState.selectedStory ≠ none := by
  refine ⟨rfl, rfl, rfl, by decide⟩

/-- C4 (amended): when a pending generation resolves with a failure the
controller moves back to the stories view and stores the server message
for a structured ApiError and the static fallback string otherwise,
while the selected story is left unchanged, not cleared. -/
theorem generation_failure_reverts_to_stories (s : AppState) (i : Nat) (req : PendingGen)
    (msg : String) (hp : s.pending[i]? = some req) :
    ((step s (.resolveGen i (.apiError msg))).view = .stories
      ∧ (step s (.resolveGen i (.apiError msg))).error = some msg
      ∧ (step s (.resolveGen i (.apiError msg))).selectedStory = s.selectedStory
      ∧ (step s (.resolveGen i (.apiError msg))).isGenerating = false)
    ∧ ((step s (.resolveGen i .failure)).view = .stories
      ∧ (step s (.resolveGen i .failure)).error =
          some "Failed to generate comic. Please try again."
      ∧ (step s (.resolveGen i .failure)).selectedStory = s.selectedStory
      ∧ (step s (.resolveGen i .failure)).isGenerating = false) := by
  simp [step, hp]

/-- Witness for C4 (amended) at the pending-generation state with a
structured server error. -/
theorem generation_failure_reverts_to_stories_w :
    (step pendingGenState (.resolveGen 0 (.apiError "boom"))).view = .stories :=
  (generation_failure_reverts_to_stories pendingGenState 0
    { story := sampleStory, scanIdAtCall := some "id1" } "boom" rfl).1.1

/-- C6: when a pending generation request resolves successfully with
comic c, the controller moves to the comic view with c active; the
history entry whose id is the scan id captured by the originating scan,
when it exists and does not already hold the summary, gains exactly one
new comic summary carrying the comicHash and title of c, every other
entry is unchanged, and no entry is added or removed. -/
theorem generation_success_appends_summary (s : AppState) (i : Nat) (req : PendingGen)
    (c : GeneratedComic) (sid : String)
    (hp : s.pending[i]? = some req) (hsid : req.scanIdAtCall = some sid) :
    (step s (.resolveGen i (.ok c))).view = .comic
    ∧ (step s (.resolveGen i (.ok c))).generatedComic = some c
    ∧ (step s (.resolveGen i (.ok c))).history =
        addComicToScan s.history sid { hash := c.comicHash, title := c.title }
    ∧ (step s (.resolveGen i (.ok c))).history.length = s.history.length
    ∧ (∀ e ∈ s.history, e.id ≠ sid → e ∈ (step s (.resolveGen i (.ok c))).history)
    ∧ (∀ e ∈ s.history, e.id = sid →
        ({ hash := c.comicHash, title := c.title } : ComicSummary) ∉ e.comics →
        { e with comics := e.comics ++ [{ hash := c.comicHash, title := c.title }] }
          ∈ (step s (.resolveGen i (.ok c))).history) := by
  have hh : (step s (.resolveGen i (.ok c))).history =
      addComicToScan s.history sid { hash := c.comicHash, title := c.title } := by
    simp [step, hp, hsid]
  refine ⟨by simp [step, hp], by simp [step, hp], hh, ?_, ?_, ?_⟩
  · rw [hh]; exact addComicToScan_length _ _ _
  · intro e he hne
    rw [hh]; exact mem_addComicToScan_of_ne _ _ _ e he hne
  · intro e he heq hc
    rw [hh]; exact mem_addComicToScan_of_eq _ _ _ e he heq hc

/-- Witness for C6 at the pending-generation state, whose history holds
the entry created by the originating scan. -/
theorem generation_success_appends_summary_w :
    (step pendingGenState (.resolveGen 0 (.ok sampleComic))).view = .comic :=
  (generation_success_appends_summary pendingGenState 0
    { story := sampleStory, scanIdAtCall := some "id1" } sampleComic "id1" rfl rfl).1

/-- C7 counterexample: staleComicTrace reaches the stories view with a
generated comic still active (the second generation failed after the
first succeeded), and clicking generate on a story advances to the
generating view WITHOUT discarding that previously active comic:
handleGenerateComic never clears generatedComic. -/
theorem select_story_keeps_stale_comic :
    staleComicState.view = .stories
    ∧ staleComicState.generatedComic = some sampleComic
    ∧ (step staleComicState (.clickGenerate sampleStory)).view = .generating
    ∧ (step staleComicState (.clickGenerate sampleStory)).generatedComic = some sampleComic
    ∧ (step staleComicState (.clickGenerate sampleStory)).generatedComic ≠ none := by
  refine ⟨rfl, rfl, rfl, rfl, by decide⟩

/-- C7 (amended): the controller state holds at most one scan result and
at most one generated comic; the start-over transition discards the
active comic and the selected story before moving to the upload view;
and the transition fired by selecting a new story overwrites the
selected story but leaves the active-comic field unchanged rather than
clearing it. -/
theorem active_artifacts_unique_and_reset (s : AppState) (r : ScanResponse)
    (story : StoryCard) :
    s.generatedComic.toList.length ≤ 1
    ∧ s.scanResult.toList.length ≤ 1
    ∧ (step s .startOver).generatedComic = none
    ∧ (step s .startOver).selectedStory = none
    ∧ (step s .startOver).view = .upload
    ∧ (s.view = .stories → s.scanResult = some r → story ∈ r.storyCards →
        (s.isGenerating && selectedMatches s.selectedStory story) = false →
        (step s (.clickGenerate story)).selectedStory = some story
        ∧ (step s (.clickGenerate story)).generatedComic = s.generatedComic) := by
  refine ⟨?_, ?_, by simp [step], by simp [step], by simp [step], ?_⟩
  · cases s.generatedComic <;> simp
  · cases s.scanResult <;> simp
  · intro hv hr hmem hen
    simp [step, hv, hr, hmem, hen]

/-- Witness for C7 (amended) at the post-scan state: selecting the
sample story sets it as selected and leaves the active comic as it was. -/
theorem active_artifacts_unique_and_reset_w :
    (step postScanState (.clickGenerate sampleStory)).selectedStory = some sampleStory :=
  ((active_artifacts_unique_and_reset postScanState sampleScan sampleStory).2.2.2.2.2
    rfl rfl (by decide) rfl).1

/-- C8: a scan of a manifest yielding 0 vulnerabilities returns a result
with 0 story cards, and the stories view renders the at-peace empty
state instead of the story-card list exactly when the story-card list is
empty. -/
theorem clean_scan_shows_at_peace :
    (∀ (fn : String) (pc clean : Nat),
      (cleanScanResult fn pc clean).vulnerabilities = []
      ∧ (cleanScanResult fn pc clean).storyCards = []
      ∧ storiesViewShowsList (cleanScanResult fn pc clean) = false)
    ∧ (∀ r : ScanResponse, storiesViewShowsList r = false ↔ r.storyCards = []) := by
  constructor
  · intro fn pc clean
    exact ⟨rfl, rfl, rfl⟩
  · intro r
    simp [storiesViewShowsList, List.length_eq_zero]

lemma navStep_lt (n p : Nat) (hp : p < n) (a : NavAction) : navStep n p a < n := by
  cases a with
  | next =>
    show (if p < n - 1 then p + 1 else p) < n
    split <;> omega
  | prev =>
    show (if 0 < p then p - 1 else p) < n
    split <;> omega
  | dot i =>
    show (if i < n then i else p) < n
    split <;> omega

lemma foldl_navStep_lt (n : Nat) (acts : List NavAction) (p : Nat) (hp : p < n) :
    acts.foldl (navStep n) p < n := by
  induction acts generalizing p with
  | nil => exact hp
  | cons a t ih => exact ih _ (navStep_lt n p hp a)

/-- C9: for a comic with a non-empty page list the viewer starts at page
index 0, every sequence of navigation events (next, prev, page dots)
keeps the index inside the page list so the page lookup succeeds, and
next at the last page and prev at the first page are no-ops. -/
theorem comic_viewer_page_in_bounds (c : GeneratedComic) (acts : List NavAction)
    (h : c.pages ≠ []) :
    runNav c.pages.length [] = 0
    ∧ runNav c.pages.length acts < c.pages.length
    ∧ (c.pages[runNav c.pages.length acts]?).isSome = true
    ∧ viewerNext c.pages.length (c.pages.length - 1) = c.pages.length - 1
    ∧ viewerPrev 0 = 0 := by
  have hn : 0 < c.pages.length := List.length_pos.mpr h
  have hlt : runNav c.pages.length acts < c.pages.length :=
    foldl_navStep_lt c.pages.length acts 0 hn
  refine ⟨rfl, hlt, ?_, ?_, rfl⟩
  · rw [List.getElem?_eq_getElem hlt]
    rfl
  · unfold viewerNext
    rw [if_neg (lt_irrefl _)]

/-- Witness for C9 at the two-page sample comic with a concrete
navigation sequence that also clicks an out-of-range page dot. -/
theorem comic_viewer_page_in_bounds_w :
    runNav sampleComic.pages.length [NavAction.next, .next, .prev, .dot 1, .dot 7]
      < sampleComic.pages.length :=
  (comic_viewer_page_in_bounds sampleComic [.next, .next, .prev, .dot 1, .dot 7]
    (by decide)).2.1

/-- C10: a drop event with an empty accepted-file list invokes the
file-select callback not at all, and a drop with a non-empty accepted
list invokes it exactly once, with the first accepted file only. -/
theorem upload_drop_selects_first_file :
    onDropCalls [] = []
    ∧ (∀ (f : UploadFile) (rest : List UploadFile), onDropCalls (f :: rest) = [f])
    ∧ (∀ fs : List UploadFile, (onDropCalls fs).length ≤ 1) := by
  refine ⟨rfl, fun f rest => by simp [onDropCalls], fun fs => ?_⟩
  unfold onDropCalls
  split <;> simp
